import Mathlib

/-!
Shallow embedding of `src/vidoecompression/videocompression2.py`
(class `VideoCompressor` and the surrounding `main` driver).

Modelling conventions:
* Python numeric arithmetic on sizes, durations and bitrates is modelled
  with exact rationals (`ℚ`); `int(x)` is truncation toward zero (`pyInt`).
* Python `None` for the optional resolution argument is `Option.none`;
  Python truthiness of an optional string (`if not res_str`) is
  `none` or `some ""`.
* Fallible Python operations (raised exceptions) are `Except` / `Option`
  results; the distinguished Python behaviour that `except Exception`
  does NOT catch `KeyboardInterrupt` is modelled explicitly in the
  control-flow model `compressTryBlock` / `mainHandler`.
* The working directory is a `Finset String` of file names; the
  destination file is tracked separately (existence flag and byte size).
-/

namespace VideoCompression

/-- Truncation toward zero on rationals, the semantics of Python `int(x)`
for a float/rational argument. -/
def pyInt (q : ℚ) : ℤ := if 0 ≤ q then ⌊q⌋ else -⌊-q⌋

/-- `VideoCompressor.RESOLUTION_PRESETS` from the source, as an
association list. -/
def RESOLUTION_PRESETS : List (String × String) :=
  [("144p", "256x144"),
   ("240p", "426x240"),
   ("360p", "640x360"),
   ("480p", "854x480"),
   ("720p", "1280x720"),
   ("1080p", "1920x1080")]

/-- Dictionary lookup `RESOLUTION_PRESETS[res_str]` guarded by
`res_str in RESOLUTION_PRESETS`. -/
def presetLookup (s : String) : Option String :=
  (RESOLUTION_PRESETS.find? (fun p => p.1 = s)).map Prod.snd

/-- Python truthiness test `not res_str` for an optional string:
true exactly for `None` and the empty string. -/
def pyFalsy (o : Option String) : Bool := o = none || o = some ""

/-- `VideoCompressor._normalize_resolution(res_str, target_size)`:
preset lookup, then size-tiered auto-selection when the argument is
falsy, otherwise the argument is returned unchanged. -/
def normalizeResolution (resStr : Option String) (targetSize : ℚ) : Option String :=
  match resStr.bind presetLookup with
  | some v => some v
  | none =>
    if pyFalsy resStr then
      if targetSize ≤ 5 then some "256x144"
      else if targetSize ≤ 15 then some "426x240"
      else if targetSize ≤ 50 then some "640x360"
      else if targetSize ≤ 100 then some "854x480"
      else resStr
    else resStr

/-- The anchored pattern match `re.match(r'^\d+x\d+$', s)`: one or more
digits, a literal `x`, one or more digits, nothing else.  Because `x` is
not a digit, the first digit run is forced to be the maximal digit
prefix. -/
def matchesWxH (s : String) : Bool :=
  let cs := s.toList
  let ds := cs.takeWhile Char.isDigit
  match cs.dropWhile Char.isDigit with
  | 'x' :: tl => decide (ds ≠ []) && decide (tl ≠ []) && tl.all Char.isDigit
  | _ => false

/-- The configuration error raised by `VideoCompressor.__init__`
(`ValueError: Invalid resolution format`). -/
inductive ConfigError
  | invalidResolution
  deriving DecidableEq, Repr

/-- The job state produced by `VideoCompressor.__init__`: the fields the
claims depend on (`target_size_mb` and the normalized `resolution`). -/
structure CompressorState where
  targetSizeMb : ℚ
  resolution : Option String
  deriving DecidableEq, Repr

/-- `VideoCompressor.__init__(…, target_size_mb, resolution, …)`:
normalizes the resolution, then raises `ValueError` when the stored
resolution is truthy and fails the strict `^\d+x\d+$` pattern.  No
validation of `target_size_mb` is performed anywhere in `__init__`. -/
def initCompressor (resolution : Option String) (targetSizeMb : ℚ) :
    Except ConfigError CompressorState :=
  match normalizeResolution resolution targetSizeMb with
  | some s =>
      if s ≠ "" && !(matchesWxH s) then .error .invalidResolution
      else .ok ⟨targetSizeMb, some s⟩
  | none => .ok ⟨targetSizeMb, none⟩

/-- Lines 208–211 of `compress`: `target_res = self.resolution`, and if
that is falsy, re-normalize with `None` to auto-select. -/
def planTargetRes (c : CompressorState) : Option String :=
  if c.resolution = none ∨ c.resolution = some "" then
    normalizeResolution none c.targetSizeMb
  else c.resolution

/-- `int(part)` on one component of a `split('x')` result: defined
exactly on non-empty all-digit strings (the only shapes the claims
exercise). -/
def parseIntPy (s : String) : Option ℕ :=
  if s.toList ≠ [] && s.toList.all Char.isDigit then
    some (s.toList.foldl (fun acc c => 10 * acc + (c.toNat - 48)) 0)
  else none

/-- Splitting a character list on `'x'`, the semantics of
`s.split('x')` on the string's characters. -/
def splitOnX : List Char → List (List Char)
  | [] => [[]]
  | c :: tl =>
    if c = 'x' then [] :: splitOnX tl
    else
      match splitOnX tl with
      | h :: t => (c :: h) :: t
      | [] => [[c]]

/-- `width, height = map(int, s.split('x'))`: requires exactly two
parts, each parsed by `int`. -/
def parsePair (s : String) : Option (ℕ × ℕ) :=
  match (splitOnX s.toList).map (fun cs => String.mk cs) with
  | [a, b] =>
    match parseIntPy a, parseIntPy b with
    | some w, some h => some (w, h)
    | _, _ => none
  | _ => none

/-- Runtime exceptions of the filter-construction block. -/
inductive PyError
  | noneHasNoSplit
  | valueError
  deriving DecidableEq, Repr

/-- Lines 260–269 of `compress`: if `target_res != original_res`, parse
both as `WxH` and emit the scale-then-pad filter box; otherwise no
filter.  When `target_res` is `None` the comparison still succeeds
(`None != "WxH"` is true) but `target_res.split('x')` raises
`AttributeError`.  The filter is represented by its target box
`(width, height)`. -/
def buildScaleFilter (targetRes : Option String) (originalRes : String) :
    Except PyError (Option (ℕ × ℕ)) :=
  if targetRes ≠ some originalRes then
    match targetRes with
    | none => .error .noneHasNoSplit
    | some s =>
      match parsePair s, parsePair originalRes with
      | some (w, h), some _ => .ok (some (w, h))
      | _, _ => .error .valueError
  else .ok none

/-- Audio bitrate tier of `compress` line 219:
`64 if target <= 10 else 96 if target <= 50 else 128` (kbps). -/
def audioKbpsOf (t : ℚ) : ℚ :=
  if t ≤ 10 then 64 else if t ≤ 50 then 96 else 128

/-- Overhead fraction tier of `compress` line 223:
`0.05 if target <= 20 else 0.03 if target <= 50 else 0.01`. -/
def overheadPercentOf (t : ℚ) : ℚ :=
  if t ≤ 20 then 0.05 else if t ≤ 50 then 0.03 else 0.01

/-- `total_bits = target_size_mb * 8388608` (line 216). -/
def totalBitsOf (t : ℚ) : ℚ := t * 8388608

/-- `audio_total_bits = audio_bitrate_bps * duration` (line 227),
with `audio_bitrate_bps = audio_bitrate_kbps * 1000`. -/
def audioTotalBitsOf (t d : ℚ) : ℚ := audioKbpsOf t * 1000 * d

/-- `video_total_bits = total_bits - audio_total_bits - overhead_bits`
(line 228). -/
def videoTotalBitsRaw (t d : ℚ) : ℚ :=
  totalBitsOf t - audioTotalBitsOf t d - totalBitsOf t * overheadPercentOf t

/-- The floor test of line 233: `video_total_bits < 50000 * duration`
(`MIN_VIDEO_BITRATE = 50000`). -/
def floorTriggers (t d : ℚ) : Bool := videoTotalBitsRaw t d < 50000 * d

/-- The numeric outcome of the bitrate-budget block of `compress`
(lines 215–245). -/
structure BitrateBudget where
  videoKbps : ℤ
  audioKbps : ℚ
  overheadBits : ℚ
  floorTriggered : Bool
  adjustedSizeMb : Option ℚ
  deriving DecidableEq, Repr

/-- The bitrate-budget computation of `compress` lines 215–245: tiered
audio bitrate and overhead fraction, remaining bits for video, the
50 kbps floor override with its recomputed "adjusted target size"
report, and `video_bitrate_kbps = int(video_bps / 1000)`. -/
def plan (t d : ℚ) : BitrateBudget :=
  let overheadBits := totalBitsOf t * overheadPercentOf t
  let videoTotal := if floorTriggers t d then 50000 * d else videoTotalBitsRaw t d
  { videoKbps := pyInt (videoTotal / d / 1000)
    audioKbps := audioKbpsOf t
    overheadBits := overheadBits
    floorTriggered := floorTriggers t d
    adjustedSizeMb :=
      if floorTriggers t d then
        some ((videoTotal + audioTotalBitsOf t d + overheadBits) / 8388608)
      else none }

/-- One `H:MM:SS.mmm` marker as captured by the regex
`time=(\d+:\d+:\d+\.\d+)` (line 159): integer hour and minute digit
runs, and a seconds field with whole part `s`, fractional digits `frac`
over `10 ^ fracDigits`. -/
structure TimeMarker where
  h : ℕ
  m : ℕ
  s : ℕ
  frac : ℕ
  fracDigits : ℕ
  deriving DecidableEq, Repr

/-- `VideoCompressor._parse_time`: `hours * 3600 + minutes * 60 +
seconds`, the seconds part carrying its decimal fraction. -/
def parseTime (tm : TimeMarker) : ℚ :=
  (tm.h : ℚ) * 3600 + (tm.m : ℚ) * 60 + ((tm.s : ℚ) + (tm.frac : ℚ) / 10 ^ tm.fracDigits)

/-- The progress-monitor loop of `_run_ffmpeg` (lines 150–169) on the
rich-progress path: each diagnostic line either carries a time marker or
not (`none` covers marker-free and unparsable lines, which are ignored);
each marker line produces one progress-bar update
`pbar.n = min(current_time, duration)`.  The result is the sequence of
reported elapsed-time values, in order. -/
def monitorReports (duration : ℚ) (lines : List (Option TimeMarker)) : List ℚ :=
  lines.filterMap (fun l => l.map (fun tm => min (parseTime tm) duration))

/-- One printed status update of the rate-limited plain-text branch
(line 174): the raw parsed elapsed time (printed without any clamp)
and the clamped percentage. -/
structure TextStatus where
  time : ℚ
  percent : ℤ
  deriving DecidableEq, Repr

/-- Line 173: `progress = min(100, int(current_time / duration * 100))
if duration > 0 else 0`. -/
def textPercent (duration current : ℚ) : ℤ :=
  if 0 < duration then min 100 (pyInt (current / duration * 100)) else 0

/-- The plain-text branch of the monitor loop (lines 170–175), taken
whenever the rich progress bar is not in use: each marker line updates
`current_time`, and the once-per-second wall-clock check decides
whether a status line is printed.  Wall-clock time is outside the
embedding, so each line carries an oracle Boolean giving the value of
`time.time() - last_time >= 1.0` at that line.  A printed status
reports the raw (unclamped) `current_time` and the clamped
percentage. -/
def textReports (duration : ℚ) (glines : List (Option TimeMarker × Bool)) :
    List TextStatus :=
  glines.filterMap fun l =>
    match l with
    | (some tm, true) => some ⟨parseTime tm, textPercent duration (parseTime tm)⟩
    | _ => none

/-- Branch selection of `_run_ffmpeg` (lines 125 and 131):
`use_tqdm = TQDM_AVAILABLE and duration > 5`, and the progress bar is
then created because `duration > 5` implies the `duration > 0` guard. -/
def useTqdmBranch (tqdmAvailable : Bool) (duration : ℚ) : Bool :=
  tqdmAvailable && decide (5 < duration)

/-- The sequence of elapsed-time values the monitor reports during one
pass: progress-bar updates on the tqdm branch (where every marker line
updates the bar, no rate gate), printed status times on the plain-text
branch. -/
def reportedTimes (tqdmAvailable : Bool) (duration : ℚ)
    (glines : List (Option TimeMarker × Bool)) : List ℚ :=
  if useTqdmBranch tqdmAvailable duration then
    monitorReports duration (glines.map Prod.fst)
  else (textReports duration glines).map TextStatus.time

/-- The encoder-failure error of `_run_ffmpeg` line 192: exit code and
remaining diagnostic (stderr) tail. -/
inductive EncodeError
  | processFailed (code : ℤ) (diagnosticTail : String)
  deriving DecidableEq, Repr

/-- Exit-status handling of the monitored (non-verbose) path of
`_run_ffmpeg` (lines 183–192): after the stream ends the process is
waited on, then `if process.returncode not in (0, 255)` an error
carrying the code and the diagnostic tail is raised; otherwise the pass
is treated as success. -/
def monitorFinish (returncode : ℤ) (stderrTail : String) : Except EncodeError Unit :=
  if ¬(returncode = 0 ∨ returncode = 255) then
    .error (.processFailed returncode stderrTail)
  else .ok ()

/-- The verification error of `compress` line 316
(`RuntimeError: Output file was not created`). -/
inductive VerifyError
  | outputMissing
  deriving DecidableEq, Repr

/-- Result of the verification block of `compress` (lines 314–331). -/
structure VerifyReport where
  finalSizeMb : ℚ
  sizeAccuracy : ℚ
  warned : Bool
  deriving DecidableEq, Repr

/-- Verification block of `compress` (lines 314–331): fail only when
the destination does not exist; otherwise compute the final size in MB,
the accuracy figure, and warn (without failing) when
`size_diff > target_size_mb * 0.1`.  No emptiness check is performed. -/
def verifyOutput (destExists : Bool) (destSizeBytes : ℕ) (targetSizeMb : ℚ) :
    Except VerifyError VerifyReport :=
  if destExists = false then .error .outputMissing
  else
    let finalSizeMb : ℚ := (destSizeBytes : ℚ) / (1024 * 1024)
    let sizeDiff := |finalSizeMb - targetSizeMb|
    .ok { finalSizeMb := finalSizeMb
          sizeAccuracy := 100 - sizeDiff / targetSizeMb * 100
          warned := decide (sizeDiff > targetSizeMb * 0.1) }

/-- The fixed pass-log artifact names `f'ffmpeg2pass{ext}'` for
`ext in ['', '.mbtree']` (lines 302–303). -/
def passlogNames : List String := ["ffmpeg2pass", "ffmpeg2pass.mbtree"]

/-- `Path.unlink()`: removes the file, raising `FileNotFoundError`
(modelled as `none`) when it does not exist. -/
def unlinkFile (fs : Finset String) (name : String) : Option (Finset String) :=
  if name ∈ fs then some (fs.erase name) else none

/-- One iteration of the cleanup loop: `if logfile.exists():
logfile.unlink()` — the existence guard makes the delete a no-op (not a
failure) when the artifact is absent. -/
def removePasslogIfExists (fs : Finset String) (name : String) : Option (Finset String) :=
  if name ∈ fs then unlinkFile fs name else some fs

/-- The cleanup loop of `compress` (lines 302–305 on success, repeated
verbatim at lines 308–311 on failure): guarded deletion of both
pass-log artifacts.  A `none` result would be a raised exception; the
guard ensures this never happens. -/
def cleanupPasslogs (fs : Finset String) : Option (Finset String) :=
  passlogNames.foldlM removePasslogIfExists fs

/-- The working-directory state with both pass-log artifacts removed;
`cleanupPasslogs` always succeeds with this value. -/
def cleanupResult (fs : Finset String) : Finset String :=
  (fs.erase "ffmpeg2pass").erase "ffmpeg2pass.mbtree"

/-- Outcome of the two encoder passes inside the `try` of `compress`
(lines 293–312): both passes completed, an ordinary exception was
raised, or a `KeyboardInterrupt` was raised. -/
inductive PassFlow
  | bothOk
  | raisedExc
  | raisedKI
  deriving DecidableEq, Repr

/-- The `try`/`except Exception` block of `compress` (lines 293–312):
on normal completion the pass logs are cleaned; on an ordinary
exception the same cleanup runs and the exception is re-raised; a
`KeyboardInterrupt` is NOT an `Exception` in Python, so it propagates
with no cleanup.  (The `none` cleanup branches are unreachable — proved
below — and would re-raise as an ordinary exception.) -/
def compressTryBlock (flow : PassFlow) (fs : Finset String) : Finset String × PassFlow :=
  match flow with
  | .bothOk =>
    match cleanupPasslogs fs with
    | some fs2 => (fs2, .bothOk)
    | none => (fs, .raisedExc)
  | .raisedExc =>
    match cleanupPasslogs fs with
    | some fs2 => (fs2, .raisedExc)
    | none => (fs, .raisedExc)
  | .raisedKI => (fs, .raisedKI)

/-- The exception handlers of `main` (lines 386–397): a
`KeyboardInterrupt` prints a message and exits with code 130, touching
no files; an ordinary exception deletes the destination only when it
exists AND is zero bytes, then exits 1; otherwise `compress` continues
to verification and `main` returns 0.  Result: (working-directory
files, destination still exists?, exit code). -/
def mainHandler (flow : PassFlow) (fs : Finset String) (destExists : Bool)
    (destSizeBytes : ℕ) : Finset String × Bool × ℕ :=
  match flow with
  | .bothOk => (fs, destExists, 0)
  | .raisedKI => (fs, destExists, 130)
  | .raisedExc =>
    (fs, (if destExists = true ∧ destSizeBytes = 0 then false else destExists), 1)

/-- End-to-end post-pass behaviour of one job: the `compress`
`try`/`except` block followed by `main`'s handlers. -/
def runJob (flow : PassFlow) (fs : Finset String) (destExists : Bool)
    (destSizeBytes : ℕ) : Finset String × Bool × ℕ :=
  let r := compressTryBlock flow fs
  mainHandler r.2 r.1 destExists destSizeBytes

/-- A gated diagnostic stream whose two time markers regress from ten
seconds to five seconds. -/
def gatedRegressingLines : List (Option TimeMarker × Bool) :=
  [(some ⟨0, 0, 10, 0, 0⟩, true), (some ⟨0, 0, 5, 0, 0⟩, true)]

/-- A gated diagnostic stream with a single time marker at one hour. -/
def overshootLines : List (Option TimeMarker × Bool) :=
  [(some ⟨1, 0, 0, 0, 0⟩, true)]

/- ------------------------------------------------------------------
Helper lemmas shared by several claims.
------------------------------------------------------------------ -/

theorem pyInt_of_nonneg (q : ℚ) (h : 0 ≤ q) : pyInt q = ⌊q⌋ := if_pos h

theorem pyInt_le_self (q : ℚ) (h : 0 ≤ q) : (pyInt q : ℚ) ≤ q := by
  rw [pyInt_of_nonneg q h]; exact Int.floor_le q

theorem le_pyInt_of_le (z : ℤ) (q : ℚ) (h0 : 0 ≤ q) (h : (z : ℚ) ≤ q) : z ≤ pyInt q := by
  rw [pyInt_of_nonneg q h0]; exact Int.le_floor.mpr h

theorem removePasslogIfExists_eq (fs : Finset String) (name : String) :
    removePasslogIfExists fs name = some (fs.erase name) := by
  unfold removePasslogIfExists unlinkFile
  split
  · simp_all
  · rename_i h
    rw [Finset.erase_eq_of_not_mem h]

theorem cleanupPasslogs_eq (fs : Finset String) :
    cleanupPasslogs fs = some (cleanupResult fs) := by
  simp [cleanupPasslogs, passlogNames, List.foldlM, removePasslogIfExists_eq, cleanupResult]

theorem parseTime_nonneg (tm : TimeMarker) : 0 ≤ parseTime tm := by
  unfold parseTime; positivity

theorem monitorReports_eq_map (duration : ℚ) (lines : List (Option TimeMarker)) :
    monitorReports duration lines
      = (lines.filterMap id).map (fun tm => min (parseTime tm) duration) := by
  induction lines with
  | nil => rfl
  | cons a tl ih =>
    cases a <;> simp [monitorReports, List.filterMap_cons] at * <;> simpa using ih

theorem textReports_mem (duration : ℚ) (glines : List (Option TimeMarker × Bool))
    (st : TextStatus) (hst : st ∈ textReports duration glines) :
    ∃ tm, st = ⟨parseTime tm, textPercent duration (parseTime tm)⟩ := by
  simp only [textReports, List.mem_filterMap] at hst
  obtain ⟨⟨m, g⟩, _, hl⟩ := hst
  cases m with
  | none => exact absurd hl (by simp)
  | some tm =>
    cases g with
    | false => exact absurd hl (by simp)
    | true =>
      refine ⟨tm, ?_⟩
      simpa [eq_comm] using hl

theorem textReports_times_sublist (duration : ℚ)
    (glines : List (Option TimeMarker × Bool)) :
    ((textReports duration glines).map TextStatus.time).Sublist
      ((glines.filterMap Prod.fst).map parseTime) := by
  induction glines with
  | nil => simp [textReports]
  | cons a tl ih =>
    obtain ⟨m, g⟩ := a
    cases m with
    | none => simpa [textReports, List.filterMap_cons] using ih
    | some tm =>
      cases g with
      | false => simpa [textReports, List.filterMap_cons] using ih.cons (parseTime tm)
      | true => simpa [textReports, List.filterMap_cons] using ih.cons₂ (parseTime tm)

theorem textPercent_bounds (duration current : ℚ) (hc : 0 ≤ current) :
    0 ≤ textPercent duration current ∧ textPercent duration current ≤ 100 := by
  unfold textPercent
  split
  · rename_i hdpos
    refine ⟨le_min (by norm_num) ?_, min_le_left _ _⟩
    exact le_pyInt_of_le 0 _ (by positivity) (by positivity)
  · exact ⟨le_refl 0, by norm_num⟩

theorem plan_videoKbps_of_floor (t d : ℚ) (hd : 0 < d) (hf : floorTriggers t d = true) :
    (plan t d).videoKbps = 50 := by
  have hd' : d ≠ 0 := ne_of_gt hd
  simp only [plan, hf, if_true]
  rw [mul_div_assoc, div_self hd', mul_one]
  norm_num [pyInt]

/- ------------------------------------------------------------------
Claim theorems.
------------------------------------------------------------------ -/

/-- C8: a requested resolution string that is neither a preset name nor
a strict `WxH` match — such as `"999"` — makes `VideoCompressor.__init__`
raise the invalid-resolution configuration error, for every target size;
construction happens before `compress` runs, so no external process has
been spawned. -/
theorem invalid_resolution_rejected_at_construction (t : ℚ) :
    initCompressor (some "999") t = .error .invalidResolution := rfl

/-- C10: explicitly requested resolutions with zero dimensions, such as
`"0x0"` and `"0x480"`, pass the strict digit-pattern validation, are
stored unchanged, and become the planned target resolution in
`compress`; the zero box even flows into the scale/pad filter builder. -/
theorem zero_dimension_resolution_accepted (t : ℚ) :
    initCompressor (some "0x0") t = .ok ⟨t, some "0x0"⟩ ∧
    planTargetRes ⟨t, some "0x0"⟩ = some "0x0" ∧
    initCompressor (some "0x480") t = .ok ⟨t, some "0x480"⟩ ∧
    planTargetRes ⟨t, some "0x480"⟩ = some "0x480" ∧
    buildScaleFilter (some "0x0") "1920x1080" = .ok (some (0, 0)) :=
  ⟨rfl, rfl, rfl, rfl, rfl⟩

/-- C7: on the monitored (non-verbose) path of `_run_ffmpeg`, after the
diagnostic stream ends the pass succeeds exactly when the exit code is
0 or the benign interruption code 255, and otherwise raises the
process-failure error carrying that exit code and the diagnostic
tail. -/
theorem monitored_pass_exit_code_policy (code : ℤ) (tail : String) :
    (monitorFinish code tail = .ok () ↔ (code = 0 ∨ code = 255)) ∧
    (monitorFinish code tail = .error (.processFailed code tail)
      ↔ ¬(code = 0 ∨ code = 255)) := by
  unfold monitorFinish
  by_cases h : code = 0 ∨ code = 255
  · rw [if_neg (not_not_intro h)]
    simp [h]
  · rw [if_pos h]
    simp [h]

/-- C6 counterexample: a destination that exists but is empty (zero
bytes) passes verification — the result is `ok` with only the
deviation warning set — contradicting the claim that verification
requires the file to be non-empty and fails otherwise. -/
theorem empty_destination_passes_verification :
    verifyOutput true 0 10
      = .ok { finalSizeMb := 0, sizeAccuracy := 0, warned := true } ∧
    (verifyOutput true 0 10).isOk = true := by
  constructor
  · unfold verifyOutput
    norm_num [Except.ok.injEq, VerifyReport.mk.injEq]
  · rfl

/-- C6 amended: verification fails exactly when the destination file
does not exist (emptiness is not checked), and when the file exists the
result is `ok` with the warning flag set exactly when the final size
deviates from the target by more than 10% — a visible warning, never a
failure. -/
theorem verification_existence_and_warning (destExists : Bool) (sz : ℕ) (t : ℚ) :
    ((verifyOutput destExists sz t).isOk = true ↔ destExists = true) ∧
    (verifyOutput false sz t = .error .outputMissing) ∧
    (Except.map VerifyReport.warned (verifyOutput true sz t)
      = .ok (decide (|(sz : ℚ) / (1024 * 1024) - t| > t * 0.1))) := by
  refine ⟨?_, rfl, rfl⟩
  cases destExists <;> simp [verifyOutput, Except.isOk, Except.toBool]

/-- C9: pass-log cleanup never fails (the existence guard makes
deletion of a missing artifact a no-op: cleaning an already-clean
directory returns it unchanged), cleanup is idempotent, and both the
success branch and the exception branch of the `try`/`except` block in
`compress` perform exactly this cleanup. -/
theorem passlog_cleanup_idempotent_and_on_both_paths (fs : Finset String) :
    cleanupPasslogs fs = some (cleanupResult fs) ∧
    cleanupPasslogs (cleanupResult fs) = some (cleanupResult fs) ∧
    cleanupResult (cleanupResult fs) = cleanupResult fs ∧
    compressTryBlock .bothOk fs = (cleanupResult fs, .bothOk) ∧
    compressTryBlock .raisedExc fs = (cleanupResult fs, .raisedExc) := by
  have hidem : cleanupResult (cleanupResult fs) = cleanupResult fs := by
    ext x
    simp only [cleanupResult, Finset.mem_erase]
    tauto
  refine ⟨cleanupPasslogs_eq fs, ?_, hidem, ?_, ?_⟩
  · rw [cleanupPasslogs_eq, hidem]
  · simp [compressTryBlock, cleanupPasslogs_eq]
  · simp [compressTryBlock, cleanupPasslogs_eq]

/-- C3: evaluation of the interruption scenario — pass 1 succeeded,
pass 2 killed by `KeyboardInterrupt` with both pass-log artifacts on
disk and a partially written (non-empty) destination.  The process
exits with code 130 as the claim states, but because Python's
`except Exception` does not catch `KeyboardInterrupt`, no cleanup runs:
both pass-log artifacts and the partial destination survive, diverging
from the claim that they are absent after the job returns. -/
theorem interrupted_pass2_keeps_artifacts_and_exits_130 :
    runJob .raisedKI ({"ffmpeg2pass", "ffmpeg2pass.mbtree"} : Finset String) true 5000000
      = ({"ffmpeg2pass", "ffmpeg2pass.mbtree"}, true, 130) ∧
    "ffmpeg2pass" ∈
      (runJob .raisedKI ({"ffmpeg2pass", "ffmpeg2pass.mbtree"} : Finset String)
        true 5000000).1 ∧
    "ffmpeg2pass.mbtree" ∈
      (runJob .raisedKI ({"ffmpeg2pass", "ffmpeg2pass.mbtree"} : Finset String)
        true 5000000).1 := by
  refine ⟨rfl, ?_, ?_⟩ <;> decide

/-- C1 (evaluation of the defect): with no requested resolution and a
target size above 100 MB, resolution planning yields `None` rather than
the source resolution; since `None` differs from the source-resolution
string, `compress` takes the filter-insertion branch and crashes on
`None.split('x')` (`AttributeError`), instead of keeping the source
resolution and proceeding without a scale/pad filter as the claim
states. -/
theorem absent_resolution_large_target_hits_crash (t : ℚ) (ht : 100 < t) :
    initCompressor none t = .ok ⟨t, none⟩ ∧
    planTargetRes ⟨t, none⟩ = none ∧
    buildScaleFilter (planTargetRes ⟨t, none⟩) "1920x1080" = .error .noneHasNoSplit := by
  have h5 : ¬ t ≤ 5 := by linarith
  have h15 : ¬ t ≤ 15 := by linarith
  have h50 : ¬ t ≤ 50 := by linarith
  have h100 : ¬ t ≤ 100 := by linarith
  have hnorm : normalizeResolution none t = none := by
    simp [normalizeResolution, pyFalsy, h5, h15, h50, h100]
  have hplan : planTargetRes ⟨t, none⟩ = none := by
    simp [planTargetRes, hnorm]
  have hinit : initCompressor none t = .ok ⟨t, none⟩ := by
    unfold initCompressor
    rw [hnorm]
  have hbuild : buildScaleFilter none "1920x1080" = .error .noneHasNoSplit := by
    simp [buildScaleFilter]
  exact ⟨hinit, hplan, by rw [hplan]; exact hbuild⟩

theorem absent_resolution_large_target_hits_crash_witness :
    (100 : ℚ) < 150 ∧
    (initCompressor none 150 = .ok ⟨150, none⟩ ∧
     planTargetRes ⟨150, none⟩ = none ∧
     buildScaleFilter (planTargetRes ⟨150, none⟩) "1920x1080" = .error .noneHasNoSplit) :=
  ⟨by norm_num, absent_resolution_large_target_hits_crash 150 (by norm_num)⟩

/-- C4 counterexample: the monitor enforces neither bound of the claim
over all diagnostic-line sequences.  On the progress-bar branch a
stream whose time markers regress from ten seconds to five produces a
decreasing reported sequence; on the plain-text branch (tqdm absent) a
marker at one hour against a 60-second duration is reported as 3600
seconds, far outside `[0, duration]`, because line 174 prints the
parsed time without any clamp. -/
theorem monitor_report_regresses_and_overshoots :
    reportedTimes true 100 gatedRegressingLines = [10, 5] ∧
    ¬ List.Chain' (fun a b : ℚ => a ≤ b) (reportedTimes true 100 gatedRegressingLines) ∧
    reportedTimes false 60 overshootLines = [3600] ∧
    ¬ ((3600 : ℚ) ≤ 60) := by
  have huse : useTqdmBranch true 100 = true := by
    simp only [useTqdmBranch, Bool.true_and, decide_eq_true_eq]
    norm_num
  have h1 : reportedTimes true 100 gatedRegressingLines = [10, 5] := by
    unfold reportedTimes
    rw [if_pos huse]
    simp only [gatedRegressingLines, List.map_cons, List.map_nil, monitorReports,
      List.filterMap_cons, List.filterMap_nil, Option.map_some]
    norm_num [parseTime, min_def]
  have h2 : reportedTimes false 60 overshootLines = [3600] := by
    unfold reportedTimes
    rw [if_neg (by simp [useTqdmBranch] : ¬ useTqdmBranch false 60 = true)]
    simp only [overshootLines, textReports, List.filterMap_cons, List.filterMap_nil,
      List.map_cons, List.map_nil]
    norm_num [parseTime]
  refine ⟨h1, ?_, h2, by norm_num⟩
  rw [h1]
  simp only [List.chain'_cons, List.chain'_singleton, and_true]
  norm_num

/-- C4 amended: on the progress-bar branch every reported elapsed time
lies in `[0, duration]` (parsed times are non-negative by the digit
pattern, and `pbar.n = min(current_time, duration)` clamps above); on
the plain-text branch reported times are non-negative but NOT clamped
to the duration, the printed percentage alone being clamped to
`[0, 100]`; and on either branch the reported sequence is
non-decreasing whenever the parsed time markers of the stream are
themselves non-decreasing — monotonicity is inherited from the stream,
never enforced by the monitor. -/
theorem monitor_reports_bounds_and_conditional_monotonicity
    (tqdmAvailable : Bool) (duration : ℚ) (glines : List (Option TimeMarker × Bool))
    (hd : 0 ≤ duration) :
    (∀ r ∈ reportedTimes tqdmAvailable duration glines, 0 ≤ r) ∧
    (useTqdmBranch tqdmAvailable duration = true →
      ∀ r ∈ reportedTimes tqdmAvailable duration glines, r ≤ duration) ∧
    (List.Chain' (fun a b : ℚ => a ≤ b) ((glines.filterMap Prod.fst).map parseTime) →
      List.Chain' (fun a b : ℚ => a ≤ b) (reportedTimes tqdmAvailable duration glines)) ∧
    (∀ st ∈ textReports duration glines,
      0 ≤ st.time ∧ 0 ≤ st.percent ∧ st.percent ≤ 100) := by
  have hmarkers : (glines.map Prod.fst).filterMap id = glines.filterMap Prod.fst := by
    rw [List.filterMap_map]
    rfl
  refine ⟨?_, ?_, ?_, ?_⟩
  · intro r hr
    unfold reportedTimes at hr
    split at hr
    · rw [monitorReports_eq_map] at hr
      simp only [List.mem_map] at hr
      obtain ⟨tm, _, rfl⟩ := hr
      exact le_min (parseTime_nonneg tm) hd
    · simp only [List.mem_map] at hr
      obtain ⟨st, hst, rfl⟩ := hr
      obtain ⟨tm, rfl⟩ := textReports_mem duration glines st hst
      exact parseTime_nonneg tm
  · intro huse r hr
    unfold reportedTimes at hr
    rw [if_pos huse, monitorReports_eq_map] at hr
    simp only [List.mem_map] at hr
    obtain ⟨tm, _, rfl⟩ := hr
    exact min_le_right _ _
  · intro hchain
    unfold reportedTimes
    split
    · rw [monitorReports_eq_map]
      rw [← hmarkers] at hchain
      rw [List.chain'_map] at hchain ⊢
      exact hchain.imp (fun a b hab => min_le_min hab le_rfl)
    · rw [List.chain'_iff_pairwise] at hchain ⊢
      exact hchain.sublist (textReports_times_sublist duration glines)
  · intro st hst
    obtain ⟨tm, rfl⟩ := textReports_mem duration glines st hst
    have hb := textPercent_bounds duration (parseTime tm) (parseTime_nonneg tm)
    exact ⟨parseTime_nonneg tm, hb.1, hb.2⟩

theorem monitor_reports_bounds_witness :
    (0 : ℚ) ≤ 60 ∧
    ((∀ r ∈ reportedTimes false 60 overshootLines, 0 ≤ r) ∧
     (useTqdmBranch false 60 = true →
       ∀ r ∈ reportedTimes false 60 overshootLines, r ≤ 60) ∧
     (List.Chain' (fun a b : ℚ => a ≤ b) ((overshootLines.filterMap Prod.fst).map parseTime) →
       List.Chain' (fun a b : ℚ => a ≤ b) (reportedTimes false 60 overshootLines)) ∧
     (∀ st ∈ textReports 60 overshootLines,
       0 ≤ st.time ∧ 0 ≤ st.percent ∧ st.percent ≤ 100)) :=
  ⟨by norm_num,
   monitor_reports_bounds_and_conditional_monotonicity false 60 overshootLines (by norm_num)⟩

/-- C5 counterexample: a job with `target_size_mb = 0` is accepted —
construction succeeds (auto-selecting the 144p preset) and bitrate
planning proceeds, the floor override clamping the video bitrate to
50 kbps; no invalid-target-size error exists anywhere in the code. -/
theorem zero_target_size_not_rejected :
    initCompressor none 0 = .ok ⟨0, some "256x144"⟩ ∧
    (plan 0 60).floorTriggered = true ∧
    (plan 0 60).videoKbps = 50 := by
  have h5 : (0 : ℚ) ≤ 5 := by norm_num
  have hnorm : normalizeResolution none 0 = some "256x144" := by
    simp [normalizeResolution, pyFalsy, h5]
  have hinit : initCompressor none 0 = .ok ⟨0, some "256x144"⟩ := by
    unfold initCompressor
    rw [hnorm]
    have hm : (decide (("256x144" : String) ≠ "") && !matchesWxH "256x144") = false := by
      decide
    simp [hm]
    decide
  have hfloor : floorTriggers 0 60 = true := by
    unfold floorTriggers videoTotalBitsRaw totalBitsOf audioTotalBitsOf audioKbpsOf
      overheadPercentOf
    rw [if_pos (by norm_num : (0 : ℚ) ≤ 10), if_pos (by norm_num : (0 : ℚ) ≤ 20)]
    simp only [decide_eq_true_eq]
    norm_num
  exact ⟨hinit, by simp [plan, hfloor],
    plan_videoKbps_of_floor 0 60 (by norm_num) hfloor⟩

/-- C5 amended: for every `target_size_mb ≤ 0` the job is NOT rejected:
construction succeeds (the auto-selected 144p preset passes the
resolution check) and bitrate planning proceeds, with the 50 kbps floor
override triggering and the video bitrate coming out at exactly the
floor. -/
theorem nonpositive_target_accepted_floor_triggers (t d : ℚ) (ht : t ≤ 0) (hd : 0 < d) :
    (initCompressor none t).isOk = true ∧
    (plan t d).floorTriggered = true ∧
    (plan t d).videoKbps = 50 := by
  have h5 : t ≤ 5 := by linarith
  have hnorm : normalizeResolution none t = some "256x144" := by
    simp [normalizeResolution, pyFalsy, h5]
  have hinit : initCompressor none t = .ok ⟨t, some "256x144"⟩ := by
    unfold initCompressor
    rw [hnorm]
    have hm : (decide (("256x144" : String) ≠ "") && !matchesWxH "256x144") = false := by
      decide
    simp [hm]
    decide
  have hfloor : floorTriggers t d = true := by
    unfold floorTriggers videoTotalBitsRaw totalBitsOf audioTotalBitsOf audioKbpsOf
      overheadPercentOf
    have h10 : t ≤ 10 := by linarith
    have h20 : t ≤ 20 := by linarith
    rw [if_pos h10, if_pos h20]
    simp only [decide_eq_true_eq]
    nlinarith
  refine ⟨by rw [hinit]; rfl, ?_, plan_videoKbps_of_floor t d hd hfloor⟩
  simp [plan, hfloor]

theorem nonpositive_target_accepted_floor_triggers_witness :
    (-2 : ℚ) ≤ 0 ∧ (0 : ℚ) < 60 ∧
    ((initCompressor none (-2)).isOk = true ∧
     (plan (-2) 60).floorTriggered = true ∧
     (plan (-2) 60).videoKbps = 50) :=
  ⟨by norm_num, by norm_num,
   nonpositive_target_accepted_floor_triggers (-2) 60 (by norm_num) (by norm_num)⟩

/-- C2: for positive target size and duration the planned video bitrate
is at least the 50 kbps floor; when the floor override does not trigger
the full bit budget is respected exactly
(`video_kbps*1000*duration + audio_kbps*1000*duration + overhead_bits ≤
target_size_mb*8*1024*1024`); and when the floor does trigger, the
recomputed predicted size (floor bits + audio bits + overhead bits,
in MB) is surfaced in the report.  Numeric semantics are modelled with
exact rational arithmetic. -/
theorem plan_floor_and_budget (t d : ℚ) (ht : 0 < t) (hd : 0 < d) :
    50 ≤ (plan t d).videoKbps ∧
    ((plan t d).floorTriggered = false →
      ((plan t d).videoKbps : ℚ) * 1000 * d + (plan t d).audioKbps * 1000 * d
        + (plan t d).overheadBits ≤ t * 8 * 1024 * 1024) ∧
    ((plan t d).floorTriggered = true →
      (plan t d).adjustedSizeMb
        = some ((50000 * d + (plan t d).audioKbps * 1000 * d + (plan t d).overheadBits)
            / 8388608)) := by
  by_cases hf : floorTriggers t d = true
  · refine ⟨?_, ?_, ?_⟩
    · rw [plan_videoKbps_of_floor t d hd hf]
    · intro hcontra
      simp [plan, hf] at hcontra
    · intro _
      simp [plan, hf, audioTotalBitsOf]
  · have hf' : floorTriggers t d = false := by
      simpa using hf
    have hraw : 50000 * d ≤ videoTotalBitsRaw t d := by
      have h := hf'
      unfold floorTriggers at h
      simpa [decide_eq_false_iff_not, not_lt] using h
    have hq50 : (50 : ℚ) ≤ videoTotalBitsRaw t d / d / 1000 := by
      rw [div_div, le_div_iff₀ (by positivity : (0 : ℚ) < d * 1000)]
      linarith
    have hq0 : (0 : ℚ) ≤ videoTotalBitsRaw t d / d / 1000 := by linarith
    have hkb : (plan t d).videoKbps = pyInt (videoTotalBitsRaw t d / d / 1000) := by
      simp [plan, hf']
    refine ⟨?_, ?_, ?_⟩
    · rw [hkb]
      exact le_pyInt_of_le 50 _ hq0 (by exact_mod_cast hq50)
    · intro _
      have h1 : (pyInt (videoTotalBitsRaw t d / d / 1000) : ℚ)
          ≤ videoTotalBitsRaw t d / d / 1000 := pyInt_le_self _ hq0
      have h2 : videoTotalBitsRaw t d / d / 1000 * 1000 * d = videoTotalBitsRaw t d := by
        field_simp
        ring
      have h3 : ((plan t d).videoKbps : ℚ) * 1000 * d ≤ videoTotalBitsRaw t d := by
        rw [hkb]
        calc ((pyInt (videoTotalBitsRaw t d / d / 1000) : ℤ) : ℚ) * 1000 * d
            ≤ videoTotalBitsRaw t d / d / 1000 * 1000 * d :=
              mul_le_mul_of_nonneg_right
                (mul_le_mul_of_nonneg_right h1 (by norm_num)) hd.le
          _ = videoTotalBitsRaw t d := h2
      have hexp : videoTotalBitsRaw t d
          = t * 8 * 1024 * 1024 - (plan t d).audioKbps * 1000 * d
            - (plan t d).overheadBits := by
        simp only [plan, videoTotalBitsRaw, totalBitsOf, audioTotalBitsOf]
        ring
      linarith [h3, hexp]
    · intro hcontra
      simp [plan, hf'] at hcontra

theorem plan_floor_and_budget_witness :
    (0 : ℚ) < 10 ∧ (0 : ℚ) < 120 ∧
    (50 ≤ (plan 10 120).videoKbps ∧
     ((plan 10 120).floorTriggered = false →
       ((plan 10 120).videoKbps : ℚ) * 1000 * 120 + (plan 10 120).audioKbps * 1000 * 120
         + (plan 10 120).overheadBits ≤ 10 * 8 * 1024 * 1024) ∧
     ((plan 10 120).floorTriggered = true →
       (plan 10 120).adjustedSizeMb
         = some ((50000 * 120 + (plan 10 120).audioKbps * 1000 * 120
             + (plan 10 120).overheadBits) / 8388608))) :=
  ⟨by norm_num, by norm_num, plan_floor_and_budget 10 120 (by norm_num) (by norm_num)⟩

end VideoCompression
